import Mathlib

/-!
Verification of the conversation-orchestration core of the ShopHub storefront
(frontend/src/components/Chatbot.tsx), as a shallow embedding.

The component is a React function component; its state hooks
(`messages`, `inputValue`, `isTyping`, `emailConfirmed`, `voiceState`) and the
platform resources it drives (localStorage, the speech-synthesis queue, the
speech-recognition service, the network) are gathered into one `ChatState`
record, and each handler of the source becomes a state-transformer on that
record.  The single-threaded, cooperative model of the spec is embedded by
running each handler to completion; the outcome of the one suspension point
(the fetch of a turn) is passed in as an explicit `TurnOutcome` argument, so a
turn is a pure function of the state, the typed text and the outcome.
-/

namespace ShopHub

/-- A product record returned by the backend.  The payload is opaque JSON that
the component casts (`data.products as Product[]`) without validation; the only
structural question the embedded code ever asks of it is key presence
(`"price" in product` …), so a product is embedded as the list of JSON keys
present on the object. -/
structure Product where
  fields : List String
deriving DecidableEq, Repr

/-- `"name" in product` — presence of a key on the JSON object. -/
def Product.hasKey (p : Product) (k : String) : Bool :=
  p.fields.contains k

/-- `message.sender`: the enum `"user" | "bot"`. -/
inductive Sender where
  | user
  | bot
deriving DecidableEq, Repr

/-- The `Message` interface of the source.  `timestamp` is `new Date()` in the
source, used for display only; it is embedded as an opaque `Nat` constant.
The three optional fields default to `none` exactly as an absent JS field. -/
structure Message where
  id : Nat
  text : String
  sender : Sender
  timestamp : Nat := 0
  products : Option (List Product) := none
  isComparison : Option Bool := none
  showEmailConfirm : Option Bool := none
deriving DecidableEq, Repr

/-- The `VoiceState` record of the source. -/
structure VoiceState where
  isListening : Bool
  isSupported : Bool
  isSpeaking : Bool
  voiceEnabled : Bool
deriving DecidableEq, Repr

/-- `localStorage`: a total map from keys to optionally-present string values
(`getItem` returns `null` for an absent key). -/
def Store : Type := String → Option String

/-- `localStorage.setItem`. -/
def setItem (st : Store) (k v : String) : Store :=
  fun q => if q = k then some v else st q

/-- JS truthiness of a `string | null` value: `null` and `""` are falsy. -/
def jsTruthy : Option String → Bool
  | none => false
  | some v => v ≠ ""

/-- `messageText || inputValue`: JS `||` falls through on the empty string,
not only on `undefined`. -/
def jsOr : Option String → String → String
  | none, b => b
  | some t, b => if t = "" then b else t

/-- JS `text.trim()`: the string with leading and trailing whitespace
removed, embedded structurally over the character list (the library trim is
not kernel-reducible). -/
def jsTrim (t : String) : String :=
  ⟨(((t.data.dropWhile Char.isWhitespace).reverse.dropWhile
      Char.isWhitespace).reverse : List Char)⟩

/-- The whole client-side state of the widget plus the platform resources it
drives.  `recognitionAvail` is whether `window.SpeechRecognition` exists
(`recognitionRef.current ≠ null`), `synthAvail` whether `speechSynthesis`
exists (`synthRef.current ≠ null`); both are fixed at startup.  `synthQueue`
is the platform text-to-speech queue (`synth.speak` enqueues, `synth.cancel`
clears).  `requests` records each issued fetch as (question, email). -/
structure ChatState where
  userName : String
  userEmail : String
  messages : List Message
  inputValue : String
  isTyping : Bool
  emailConfirmed : Bool
  voice : VoiceState
  store : Store
  synthQueue : List String
  recognitionAvail : Bool
  synthAvail : Bool
  requests : List (String × String)

/-- The response body of the inference backend: `{ answer, products? }`.
`answer = none` embeds an absent or null `answer` (the `??` fallback fires);
`products = none` embeds a `products` field that is absent, null or not an
array (the `Array.isArray` test fails), `some []` an empty array. -/
structure BackendResponse where
  answer : Option String
  products : Option (List Product)
deriving Repr

/-- How the single suspension point of a turn resolves.  `success` is a parsed
response; `networkFailure` is a throw from `fetch`/`response.json()`;
`narrationThrows` is a throw raised by `speakText` on the response,
`classifierThrows` one raised while the product payload is built — all three
land in the `catch` block of the source. -/
inductive TurnOutcome where
  | success (data : BackendResponse)
  | networkFailure
  | narrationThrows (data : BackendResponse)
  | classifierThrows (data : BackendResponse)

/-- The localStorage key `email-confirmed-${userEmail}`. -/
def storageKey (email : String) : String :=
  "email-confirmed-" ++ email

/-- `IdentityGate.isConfirmed`: reads the persisted flag; absent key is
unconfirmed. -/
def isConfirmed (st : Store) (email : String) : Bool :=
  st (storageKey email) == some "true"

/-- The classifier `isComparisonData` of the source: fewer than two products
is never a comparison; otherwise every product must carry the keys `price`,
`rating` and `name` (presence only, values never inspected). -/
def isComparisonData (products : List Product) : Bool :=
  if products.length < 2 then false
  else products.all fun product =>
    product.hasKey "price" && product.hasKey "rating" && product.hasKey "name"

/-- The greeting seed text (`Hi ${userName}! I'm your shopping assistant. How
can I help you find the perfect product today?`). -/
def greetingText (userName : String) : String :=
  "Hi " ++ userName ++ "! I'm your shopping assistant. How can I help you find the perfect product today?"

/-- The email-confirmation prompt seed text. -/
def promptText (userName : String) : String :=
  "Hi " ++ userName ++ "! I'm your shopping assistant. Before we start, I'd like to confirm your email address for a better experience."

/-- `data.answer ?? "Sorry, I didn't understand that."` fallback string. -/
def defaultAnswer : String :=
  "Sorry, I didn't understand that."

/-- The fixed apology text of the network-failure fallback message. -/
def fallbackText : String :=
  "Sorry, I'm having trouble right now. Please try again later."

/-- The bot confirmation text appended by `confirmEmail`. -/
def confirmText : String :=
  "Perfect! Your email has been confirmed. Now, how can I help you find the perfect product today?"

/-- The email-management `useEffect` that seeds the conversation: reads the
persisted flag (`confirmedItem`, read once in the source and inlined here),
sets `emailConfirmed`, and seeds message id 1 with the email-confirmation
prompt (flag `showEmailConfirm = true`) when the email is non-empty and the
stored item is falsy, else with the plain greeting.  The voice-setup effect's
one lasting write, `isSupported`, is folded in. -/
def initChat (userName userEmail : String) (store : Store)
    (recognitionAvail synthAvail : Bool) : ChatState :=
  { userName := userName
    userEmail := userEmail
    messages :=
      if userEmail ≠ "" ∧ jsTruthy (store (storageKey userEmail)) = false then
        [{ id := 1, text := promptText userName, sender := Sender.bot,
           showEmailConfirm := some true }]
      else
        [{ id := 1, text := greetingText userName, sender := Sender.bot }]
    inputValue := ""
    isTyping := false
    emailConfirmed := store (storageKey userEmail) == some "true"
    voice := { isListening := false, isSupported := recognitionAvail && synthAvail,
               isSpeaking := false, voiceEnabled := true }
    store := store
    synthQueue := []
    recognitionAvail := recognitionAvail
    synthAvail := synthAvail
    requests := [] }

/-- `startListening` of the source: guarded only by
`recognitionRef.current && voiceState.isSupported`; when the guard holds it
sets `isListening` and calls `recognition.start()`.  The second component
reports whether a platform capture start was issued. -/
def startListening (s : ChatState) : ChatState × Bool :=
  if s.recognitionAvail && s.voice.isSupported then
    ({ s with voice := { s.voice with isListening := true } }, true)
  else
    (s, false)

/-- `stopListening` of the source. -/
def stopListening (s : ChatState) : ChatState :=
  if s.recognitionAvail then
    { s with voice := { s.voice with isListening := false } }
  else s

/-- `speakText` of the source: a no-op unless synthesis exists, the user
toggle is on and not already `isSpeaking`; otherwise `synth.cancel()` clears
the platform queue and `synth.speak(utterance)` enqueues the one new
utterance.  `isSpeaking` itself only changes in the platform callbacks. -/
def speakText (s : ChatState) (text : String) : ChatState :=
  if s.synthAvail && s.voice.voiceEnabled && !s.voice.isSpeaking then
    { s with synthQueue := [text] }
  else s

/-- `if (voiceState.voiceEnabled) speakText(text)` — the narration step both
`handleSendMessage` and `confirmEmail` end with. -/
def narrate (s : ChatState) (text : String) : ChatState :=
  if s.voice.voiceEnabled then speakText s text else s

/-- `toggleVoice` of the source: cancels ongoing speech when turning the
switch while speaking, then flips `voiceEnabled`. -/
def toggleVoice (s : ChatState) : ChatState :=
  if s.voice.isSpeaking && s.synthAvail then
    { s with synthQueue := [],
             voice := { s.voice with voiceEnabled := !s.voice.voiceEnabled } }
  else
    { s with voice := { s.voice with voiceEnabled := !s.voice.voiceEnabled } }

/-- The `recognition.onresult` callback: the transcript replaces the input
buffer and capture returns to idle. -/
def recogOnResult (s : ChatState) (transcript : String) : ChatState :=
  { s with inputValue := transcript,
           voice := { s.voice with isListening := false } }

/-- The `recognition.onerror` / `onend` callbacks: capture returns to idle. -/
def recogOnEnd (s : ChatState) : ChatState :=
  { s with voice := { s.voice with isListening := false } }

/-- The `utterance.onstart` callback. -/
def uttOnStart (s : ChatState) : ChatState :=
  { s with voice := { s.voice with isSpeaking := true } }

/-- The `utterance.onend` / `onerror` callbacks: playback returns to idle and
the finished utterance leaves the platform queue. -/
def uttOnEnd (s : ChatState) : ChatState :=
  { s with voice := { s.voice with isSpeaking := false }, synthQueue := [] }

/-- The in-place flag clearing of `confirmEmail`, as a function on a single
message: the body of the `map` in
`prev.map((msg) => (msg.showEmailConfirm ? { ...msg, showEmailConfirm: false } : msg))`. -/
def clearPending (msg : Message) : Message :=
  if msg.showEmailConfirm = some true then
    { msg with showEmailConfirm := some false }
  else msg

/-- `showEmailConfirm` is truthy (JS `msg.showEmailConfirm ?`). -/
def pendingFlag (msg : Message) : Bool :=
  msg.showEmailConfirm == some true

/-- The bot confirmation message `confirmEmail` builds
(`id: messages.length + 1`). -/
def confirmMessage (s : ChatState) : Message :=
  { id := s.messages.length + 1, text := confirmText, sender := Sender.bot }

/-- The state after `confirmEmail`'s synchronous updates: the persisted flag
written, `emailConfirmed` set, the pending flag cleared in place on every
message carrying it while the confirmation message is appended. -/
def confirmedState (s : ChatState) : ChatState :=
  { s with store := setItem s.store (storageKey s.userEmail) "true"
           emailConfirmed := true
           messages := s.messages.map clearPending ++ [confirmMessage s] }

/-- `confirmEmail` of the source: persists the flag, sets `emailConfirmed`,
clears `showEmailConfirm` in place (by `map`, not by replacement), appends the
bot confirmation message, then narrates it when voice is enabled. -/
def confirmEmailOp (s : ChatState) : ChatState :=
  narrate (confirmedState s) (confirmMessage s).text

/-- The email sent with a turn: the confirmed address, else the fixed guest
placeholder. -/
def effectiveEmail (s : ChatState) : String :=
  if s.emailConfirmed then s.userEmail else "guest@example.com"

/-- The optimistic user message of a turn (`id: messages.length + 1`); `L` is
the timeline length captured by the handler's closure. -/
def userMessage (L : Nat) (textToSend : String) : Message :=
  { id := L + 1, text := textToSend, sender := Sender.user }

/-- The bot text message of a turn (`id: messages.length + 2`, answer with the
nullish fallback). -/
def botMessage (L : Nat) (answer : Option String) : Message :=
  { id := L + 2, text := answer.getD defaultAnswer, sender := Sender.bot }

/-- The companion product message of a turn (`id: messages.length + 3`), built
only when `products` is an array with at least one entry. -/
def productPayload (L : Nat) (products : Option (List Product)) : Option Message :=
  match products with
  | some ps =>
      if ps.length > 0 then
        some { id := L + 3, text := "", sender := Sender.bot,
               products := some ps, isComparison := some (isComparisonData ps) }
      else none
  | none => none

/-- `handleSendMessage` of the source.  Only the empty trimmed text returns
early; an accepted call appends the optimistic user message, clears the input,
raises the typing flag and issues one request.  The `try` block then runs to
the given outcome: on `success` the bot text message is built, narrated when
voice is enabled, and appended together with the optional product payload in
one update; a throw from the fetch, from narration or from payload
construction lands in `catch`, which appends the fixed fallback message
(`id: messages.length + 2` from the same closure).  `finally` clears the
typing flag on every path. -/
def handleSendMessage (s : ChatState) (messageText : Option String)
    (outcome : TurnOutcome) : ChatState :=
  let textToSend := jsOr messageText s.inputValue
  if jsTrim textToSend = "" then s
  else
    let L := s.messages.length
    let s1 : ChatState :=
      { s with messages := s.messages ++ [userMessage L textToSend]
               inputValue := ""
               isTyping := true
               requests := s.requests ++ [(textToSend, effectiveEmail s)] }
    let errorMessage : Message :=
      { id := L + 2, text := fallbackText, sender := Sender.bot }
    let s2 : ChatState :=
      match outcome with
      | TurnOutcome.networkFailure =>
          -- fetch / response.json() threw: catch appends the fallback
          { s1 with messages := s1.messages ++ [errorMessage] }
      | TurnOutcome.narrationThrows _ =>
          -- speakText threw before any state change landed: catch
          { s1 with messages := s1.messages ++ [errorMessage] }
      | TurnOutcome.classifierThrows data =>
          -- payload construction threw after narration ran: catch
          let sS := narrate s1 (botMessage L data.answer).text
          { sS with messages := sS.messages ++ [errorMessage] }
      | TurnOutcome.success data =>
          let sS := narrate s1 (botMessage L data.answer).text
          match productPayload L data.products with
          | some pm =>
              { sS with messages := sS.messages ++ [botMessage L data.answer, pm] }
          | none =>
              { sS with messages := sS.messages ++ [botMessage L data.answer] }
    { s2 with isTyping := false }

/-- The synchronous prefix of `handleSendMessage`, up to the `await fetch`
suspension: the guard on the trimmed text, the optimistic user-message
append, the input clear, the typing flag and the issued request.  It returns
the state at the suspension point; the resumption additionally needs the
closure length `s.messages.length` captured here, because the source computes
the response ids from the `messages` value its closure holds, not from the
list as it stands when the fetch settles. -/
def sendPhase1 (s : ChatState) (messageText : Option String) : ChatState :=
  let textToSend := jsOr messageText s.inputValue
  if jsTrim textToSend = "" then s
  else
    { s with messages := s.messages ++ [userMessage s.messages.length textToSend]
             inputValue := ""
             isTyping := true
             requests := s.requests ++ [(textToSend, effectiveEmail s)] }

/-- The resumption of an accepted `handleSendMessage` turn after its fetch
settles: the try/catch/finally tail of the source, run against the
then-current state `s` while every id comes from the stale closure length `L`
of the call that started the turn (`messages.length + 2` and `+ 3` in the
source). -/
def sendPhase2 (L : Nat) (s : ChatState) (outcome : TurnOutcome) : ChatState :=
  let errorMessage : Message :=
    { id := L + 2, text := fallbackText, sender := Sender.bot }
  let s2 : ChatState :=
    match outcome with
    | TurnOutcome.networkFailure =>
        { s with messages := s.messages ++ [errorMessage] }
    | TurnOutcome.narrationThrows _ =>
        { s with messages := s.messages ++ [errorMessage] }
    | TurnOutcome.classifierThrows data =>
        let sS := narrate s (botMessage L data.answer).text
        { sS with messages := sS.messages ++ [errorMessage] }
    | TurnOutcome.success data =>
        let sS := narrate s (botMessage L data.answer).text
        match productPayload L data.products with
        | some pm =>
            { sS with messages := sS.messages ++ [botMessage L data.answer, pm] }
        | none =>
            { sS with messages := sS.messages ++ [botMessage L data.answer] }
  { s2 with isTyping := false }

/-- The states reachable from a fresh mount by the public operations and the
platform callbacks. -/
inductive Reached : ChatState → Prop where
  | init (userName userEmail : String) (store : Store) (ra sa : Bool) :
      Reached (initChat userName userEmail store ra sa)
  | send {s : ChatState} (mt : Option String) (o : TurnOutcome) :
      Reached s → Reached (handleSendMessage s mt o)
  | confirm {s : ChatState} : Reached s → Reached (confirmEmailOp s)
  | startL {s : ChatState} : Reached s → Reached (startListening s).1
  | stopL {s : ChatState} : Reached s → Reached (stopListening s)
  | toggle {s : ChatState} : Reached s → Reached (toggleVoice s)
  | speak {s : ChatState} (t : String) : Reached s → Reached (speakText s t)
  | onResult {s : ChatState} (t : String) : Reached s → Reached (recogOnResult s t)
  | onRecogEnd {s : ChatState} : Reached s → Reached (recogOnEnd s)
  | onUttStart {s : ChatState} : Reached s → Reached (uttOnStart s)
  | onUttEnd {s : ChatState} : Reached s → Reached (uttOnEnd s)

/-- Ids are contiguous from `k` on: `m.id = k`, then `k+1`, … -/
def idsFrom : Nat → List Message → Prop
  | _, [] => True
  | k, m :: rest => m.id = k ∧ idsFrom (k + 1) rest

/-- (id, text, sender) of a message: the part `confirmEmail` must preserve. -/
def msgCore (m : Message) : Nat × String × Sender :=
  (m.id, m.text, m.sender)

/-- The timeline invariants the claims are about: ids contiguous from 1, at
most one live email-confirmation prompt, and product payloads only on bot
messages with empty text. -/
def msgsOk (msgs : List Message) : Prop :=
  idsFrom 1 msgs ∧
  msgs.countP pendingFlag ≤ 1 ∧
  ∀ m ∈ msgs, m.products.isSome = true → m.text = "" ∧ m.sender = Sender.bot

/-- An empty localStorage. -/
def emptyStore : Store := fun _ => none

/-- A fresh mount for a user whose identity has no email: greeting seed. -/
def demoFresh : ChatState := initChat "Ada" "" emptyStore true true

/-- A fresh mount for an unconfirmed email: the prompt seed is pending. -/
def demoPending : ChatState := initChat "Ada" "a@x.com" emptyStore true true

/-- `demoFresh` after `startListening`: voice capture is active. -/
def demoListening : ChatState := (startListening demoFresh).1

/-- Two products each carrying the keys name, price and rating. -/
def demoProducts : List Product :=
  [⟨["name", "price", "rating"]⟩, ⟨["name", "price", "rating"]⟩]

/-- A parsed backend response carrying an answer and two products. -/
def demoResponse : BackendResponse :=
  { answer := some "Here are some phones", products := some demoProducts }

/-- The pending seed message of `demoPending`. -/
def demoSeed : Message :=
  { id := 1, text := promptText "Ada", sender := Sender.bot,
    showEmailConfirm := some true }

/-- `demoFresh` after one successful turn that returned two products. -/
def demoWithProducts : ChatState :=
  handleSendMessage demoFresh (some "show me some phones")
    (TurnOutcome.success demoResponse)

/-- The product message appended in `demoWithProducts` (seed id 1, user id 2,
bot text id 3, products id 4). -/
def demoProductMessage : Message :=
  { id := 4, text := "", sender := Sender.bot, products := some demoProducts,
    isComparison := some (isComparisonData demoProducts) }

/-- The interleaved schedule the source admits because `handleSendMessage`
never consults the in-flight flag: from the greeting seed, turn A
(`"first question"`) is accepted and suspends at its fetch; turn B
(`"second question"`) is accepted during A's flight; then A's response
arrives and A's resumption computes its bot id from A's stale closure length
(the seed-only timeline), colliding with the id B already used. -/
def raceState : ChatState :=
  sendPhase2 demoFresh.messages.length
    (sendPhase1 (sendPhase1 demoFresh (some "first question"))
      (some "second question"))
    (TurnOutcome.success { answer := some "answer A", products := none })

end ShopHub

namespace ShopHub

theorem speakText_messages (s : ChatState) (t : String) :
    (speakText s t).messages = s.messages := by
  unfold speakText; split <;> rfl

theorem speakText_store (s : ChatState) (t : String) :
    (speakText s t).store = s.store := by
  unfold speakText; split <;> rfl

theorem speakText_requests (s : ChatState) (t : String) :
    (speakText s t).requests = s.requests := by
  unfold speakText; split <;> rfl

theorem narrate_messages (s : ChatState) (t : String) :
    (narrate s t).messages = s.messages := by
  unfold narrate; split
  · exact speakText_messages s t
  · rfl

theorem narrate_store (s : ChatState) (t : String) :
    (narrate s t).store = s.store := by
  unfold narrate; split
  · exact speakText_store s t
  · rfl

theorem narrate_requests (s : ChatState) (t : String) :
    (narrate s t).requests = s.requests := by
  unfold narrate; split
  · exact speakText_requests s t
  · rfl

theorem idsFrom_append {k : Nat} {xs ys : List Message} :
    idsFrom k (xs ++ ys) ↔ idsFrom k xs ∧ idsFrom (k + xs.length) ys := by
  induction xs generalizing k with
  | nil => simp [idsFrom]
  | cons m rest ih =>
      have h : k + 1 + rest.length = k + (rest.length + 1) := by omega
      show (m.id = k ∧ idsFrom (k + 1) (rest ++ ys)) ↔ _
      rw [ih, h]
      exact and_assoc.symm

theorem clearPending_id (m : Message) : (clearPending m).id = m.id := by
  unfold clearPending; split <;> rfl

theorem clearPending_core (m : Message) : msgCore (clearPending m) = msgCore m := by
  unfold clearPending msgCore; split <;> rfl

theorem clearPending_products (m : Message) :
    (clearPending m).products = m.products := by
  unfold clearPending; split <;> rfl

theorem clearPending_text (m : Message) : (clearPending m).text = m.text := by
  unfold clearPending; split <;> rfl

theorem clearPending_sender (m : Message) : (clearPending m).sender = m.sender := by
  unfold clearPending; split <;> rfl

theorem pendingFlag_clearPending (m : Message) :
    pendingFlag (clearPending m) = false := by
  unfold clearPending pendingFlag
  split
  · rfl
  · next h => exact beq_eq_false_iff_ne.mpr h

theorem idsFrom_map_clearPending {k : Nat} {msgs : List Message} :
    idsFrom k (msgs.map clearPending) ↔ idsFrom k msgs := by
  induction msgs generalizing k with
  | nil => simp [idsFrom]
  | cons m rest ih => simp [idsFrom, ih, clearPending_id]

theorem idsFrom_map_id {msgs : List Message} {k : Nat} (h : idsFrom k msgs) :
    msgs.map Message.id = List.range' k msgs.length := by
  induction msgs generalizing k with
  | nil => simp
  | cons m rest ih =>
      obtain ⟨h1, h2⟩ := h
      simp [List.range'_succ, h1, ih h2]

theorem sendMessage_of_empty (s : ChatState) (mt : Option String) (o : TurnOutcome)
    (h : jsTrim (jsOr mt s.inputValue) = "") :
    handleSendMessage s mt o = s := by
  unfold handleSendMessage
  simp only [h, if_pos]

theorem sendMessage_messages_split (s : ChatState) (mt : Option String)
    (o : TurnOutcome) (ht : ¬ jsTrim (jsOr mt s.inputValue) = "") :
    ∃ tail : List Message,
      (handleSendMessage s mt o).messages = s.messages ++ tail ∧
      idsFrom (s.messages.length + 1) tail ∧
      (∀ m ∈ tail, m.showEmailConfirm = none) ∧
      (∀ m ∈ tail, m.products.isSome = true → m.text = "" ∧ m.sender = Sender.bot) := by
  unfold handleSendMessage
  simp only [if_neg ht]
  cases o with
  | networkFailure =>
      refine ⟨[userMessage s.messages.length (jsOr mt s.inputValue),
               { id := s.messages.length + 2, text := fallbackText, sender := Sender.bot }],
              ?_, ?_, ?_, ?_⟩
      · simp
      · simp [idsFrom, userMessage]
      · simp [userMessage]
      · simp [userMessage]
  | narrationThrows data =>
      refine ⟨[userMessage s.messages.length (jsOr mt s.inputValue),
               { id := s.messages.length + 2, text := fallbackText, sender := Sender.bot }],
              ?_, ?_, ?_, ?_⟩
      · simp
      · simp [idsFrom, userMessage]
      · simp [userMessage]
      · simp [userMessage]
  | classifierThrows data =>
      refine ⟨[userMessage s.messages.length (jsOr mt s.inputValue),
               { id := s.messages.length + 2, text := fallbackText, sender := Sender.bot }],
              ?_, ?_, ?_, ?_⟩
      · simp [narrate_messages]
      · simp [idsFrom, userMessage]
      · simp [userMessage]
      · simp [userMessage]
  | success data =>
      cases hd : data.products with
      | none =>
          refine ⟨[userMessage s.messages.length (jsOr mt s.inputValue),
                   botMessage s.messages.length data.answer], ?_, ?_, ?_, ?_⟩
          · simp [hd, productPayload, narrate_messages]
          · simp [idsFrom, userMessage, botMessage]
          · simp [userMessage, botMessage]
          · simp [userMessage, botMessage]
      | some ps =>
          by_cases hl : ps.length > 0
          · refine ⟨[userMessage s.messages.length (jsOr mt s.inputValue),
                     botMessage s.messages.length data.answer,
                     { id := s.messages.length + 3, text := "", sender := Sender.bot,
                       products := some ps,
                       isComparison := some (isComparisonData ps) }], ?_, ?_, ?_, ?_⟩
            · simp [hd, productPayload, hl, narrate_messages]
            · simp [idsFrom, userMessage, botMessage]
            · simp [userMessage, botMessage]
            · simp [userMessage, botMessage]
          · refine ⟨[userMessage s.messages.length (jsOr mt s.inputValue),
                     botMessage s.messages.length data.answer], ?_, ?_, ?_, ?_⟩
            · simp [hd, productPayload, hl, narrate_messages]
            · simp [idsFrom, userMessage, botMessage]
            · simp [userMessage, botMessage]
            · simp [userMessage, botMessage]

theorem reached_msgsOk {s : ChatState} (h : Reached s) : msgsOk s.messages := by
  induction h with
  | init userName userEmail store ra sa =>
      unfold msgsOk initChat
      dsimp only
      split <;>
        simp [idsFrom, pendingFlag, List.countP_cons, List.countP_nil]
  | send mt o hr ih =>
      rename_i s0
      by_cases ht : jsTrim (jsOr mt s0.inputValue) = ""
      · rw [sendMessage_of_empty s0 mt o ht]; exact ih
      · obtain ⟨tail, hmsg, hids, hflags, hprod⟩ :=
          sendMessage_messages_split s0 mt o ht
        obtain ⟨ih1, ih2, ih3⟩ := ih
        refine ⟨?_, ?_, ?_⟩
        · rw [hmsg]
          refine idsFrom_append.mpr ⟨ih1, ?_⟩
          have e : 1 + s0.messages.length = s0.messages.length + 1 := by omega
          rw [e]; exact hids
        · rw [hmsg, List.countP_append]
          have : tail.countP pendingFlag = 0 := by
            rw [List.countP_eq_zero]
            intro m hm
            simp [pendingFlag, hflags m hm]
          omega
        · rw [hmsg]
          intro m hm
          rcases List.mem_append.mp hm with h1 | h2
          · exact ih3 m h1
          · exact hprod m h2
  | confirm hr ih =>
      rename_i s0
      obtain ⟨ih1, ih2, ih3⟩ := ih
      have hmsg : (confirmEmailOp s0).messages =
          s0.messages.map clearPending ++ [confirmMessage s0] := by
        unfold confirmEmailOp
        rw [narrate_messages]
        rfl
      refine ⟨?_, ?_, ?_⟩
      · rw [hmsg]
        refine idsFrom_append.mpr ⟨idsFrom_map_clearPending.mpr ih1, ?_⟩
        simp only [List.length_map, idsFrom, confirmMessage]
        exact ⟨by omega, trivial⟩
      · rw [hmsg, List.countP_append]
        have h1 : (s0.messages.map clearPending).countP pendingFlag = 0 := by
          rw [List.countP_eq_zero]
          intro m hm
          obtain ⟨m', _, rfl⟩ := List.mem_map.mp hm
          simp [pendingFlag_clearPending]
        have h2 : List.countP pendingFlag [confirmMessage s0] = 0 := by
          simp [pendingFlag, confirmMessage, List.countP_cons]
        omega
      · rw [hmsg]
        intro m hm
        rcases List.mem_append.mp hm with h1 | h2
        · obtain ⟨m', hm', rfl⟩ := List.mem_map.mp h1
          rw [clearPending_products, clearPending_text, clearPending_sender]
          exact ih3 m' hm'
        · simp at h2
          subst h2
          simp [confirmMessage]
  | startL hr ih =>
      rename_i s0
      have : (startListening s0).1.messages = s0.messages := by
        unfold startListening; split <;> rfl
      rw [this]; exact ih
  | stopL hr ih =>
      rename_i s0
      have : (stopListening s0).messages = s0.messages := by
        unfold stopListening; split <;> rfl
      rw [this]; exact ih
  | toggle hr ih =>
      rename_i s0
      have : (toggleVoice s0).messages = s0.messages := by
        unfold toggleVoice; split <;> rfl
      rw [this]; exact ih
  | speak t hr ih =>
      rename_i s0
      rw [speakText_messages]; exact ih
  | onResult t hr ih => exact ih
  | onRecogEnd hr ih => exact ih
  | onUttStart hr ih => exact ih
  | onUttEnd hr ih => exact ih

theorem sendMessage_requests (s : ChatState) (mt : Option String) (o : TurnOutcome)
    (ht : ¬ jsTrim (jsOr mt s.inputValue) = "") :
    (handleSendMessage s mt o).requests =
      s.requests ++ [(jsOr mt s.inputValue, effectiveEmail s)] := by
  unfold handleSendMessage
  simp only [if_neg ht]
  cases o with
  | networkFailure => rfl
  | narrationThrows data => rfl
  | classifierThrows data => simp [narrate_requests]
  | success data =>
      cases hd : data.products with
      | none => simp [hd, productPayload, narrate_requests]
      | some ps =>
          by_cases hl : ps.length > 0 <;>
            simp [hd, productPayload, hl, narrate_requests]

theorem sendMessage_isTyping (s : ChatState) (mt : Option String) (o : TurnOutcome)
    (ht : ¬ jsTrim (jsOr mt s.inputValue) = "") :
    (handleSendMessage s mt o).isTyping = false := by
  unfold handleSendMessage
  simp only [if_neg ht]

theorem sendMessage_head (s : ChatState) (mt : Option String) (o : TurnOutcome)
    (ht : ¬ jsTrim (jsOr mt s.inputValue) = "") :
    ∃ rest : List Message,
      (handleSendMessage s mt o).messages =
        s.messages ++ (userMessage s.messages.length (jsOr mt s.inputValue) :: rest) := by
  unfold handleSendMessage
  simp only [if_neg ht]
  cases o with
  | networkFailure =>
      exact ⟨[{ id := s.messages.length + 2, text := fallbackText,
                sender := Sender.bot }], by simp⟩
  | narrationThrows data =>
      exact ⟨[{ id := s.messages.length + 2, text := fallbackText,
                sender := Sender.bot }], by simp⟩
  | classifierThrows data =>
      exact ⟨[{ id := s.messages.length + 2, text := fallbackText,
                sender := Sender.bot }], by simp [narrate_messages]⟩
  | success data =>
      cases hd : data.products with
      | none =>
          exact ⟨[botMessage s.messages.length data.answer],
                 by simp [hd, productPayload, narrate_messages]⟩
      | some ps =>
          by_cases hl : ps.length > 0
          · exact ⟨[botMessage s.messages.length data.answer,
                    { id := s.messages.length + 3, text := "", sender := Sender.bot,
                      products := some ps,
                      isComparison := some (isComparisonData ps) }],
                   by simp [hd, productPayload, hl, narrate_messages]⟩
          · exact ⟨[botMessage s.messages.length data.answer],
                   by simp [hd, productPayload, hl, narrate_messages]⟩

/-- C1: the classifier returns `isComparison = true` iff the list has at
least two entries and every entry carries the keys `name`, `price` and
`rating` (presence regardless of value); in particular every single-element
list classifies as `false` whatever its fields. -/
theorem classifier_comparison_iff :
    (∀ ps : List Product, isComparisonData ps = true ↔
        2 ≤ ps.length ∧ ∀ p ∈ ps,
          p.hasKey "name" = true ∧ p.hasKey "price" = true ∧ p.hasKey "rating" = true)
  ∧ ∀ p : Product, isComparisonData [p] = false := by
  constructor
  · intro ps
    by_cases h : ps.length < 2
    · have h2 : ¬ 2 ≤ ps.length := by omega
      simp [isComparisonData, h, h2]
    · have h2 : 2 ≤ ps.length := by omega
      simp only [isComparisonData, if_neg h, List.all_eq_true, Bool.and_eq_true, h2,
        true_and]
      constructor
      · intro hall p hp
        have := hall p hp
        tauto
      · intro hall p hp
        have := hall p hp
        tauto
  · intro p
    rfl

/-- Under serialized schedules — every turn running to completion before the
next operation, which is what `Reached` closes over — the timeline's ids are
exactly 1, 2, …, n in insertion order.  Together with
`messageIds_duplicate_race` this locates the id bug precisely: duplicate ids
need two accepted turns overlapping at the fetch suspension. -/
theorem messageIds_contiguous (s : ChatState) (h : Reached s) :
    s.messages.map Message.id = List.range' 1 s.messages.length :=
  idsFrom_map_id (reached_msgsOk h).1

/-- `messageIds_contiguous` at a concrete serialized state: a fresh mount
followed by one successful product turn. -/
theorem messageIds_contiguous_witness :
    demoWithProducts.messages.map Message.id =
      List.range' 1 demoWithProducts.messages.length :=
  messageIds_contiguous demoWithProducts
    (Reached.send (some "show me some phones") (TurnOutcome.success demoResponse)
      (Reached.init "Ada" "" emptyStore true true))

/-- The phase split is the same code as the atomic turn: an accepted
`handleSendMessage` call is exactly `sendPhase1` (the prefix up to the
`await`) followed immediately by `sendPhase2` at the closure length — the
atomic embedding is the special case in which nothing interleaves at the
suspension. -/
theorem handleSendMessage_eq_phases (s : ChatState) (mt : Option String)
    (o : TurnOutcome) (ht : ¬ jsTrim (jsOr mt s.inputValue) = "") :
    handleSendMessage s mt o = sendPhase2 s.messages.length (sendPhase1 s mt) o := by
  unfold handleSendMessage sendPhase1 sendPhase2
  simp only [if_neg ht]

/-- C3 fails on the code at this concrete schedule: turn A is accepted from
the seed-only timeline (user id 2) and suspends in flight (typing flag set);
turn B is accepted during the flight (user id 3, from the then-current
length); when A's response arrives, A's resumption takes its bot id from A's
stale closure length, `1 + 2 = 3`, so the timeline's ids are 1, 2, 3, 3 —
a reused id, neither strictly increasing nor contiguous.  This is the
length-as-counter race that spec §9 flags, prescribing a monotonic counter
owned by the controller as the correct behaviour. -/
theorem messageIds_duplicate_race :
    (sendPhase1 demoFresh (some "first question")).isTyping = true
  ∧ raceState.messages.map Message.id = [1, 2, 3, 3]
  ∧ ¬ (raceState.messages.map Message.id).Nodup := by
  refine ⟨rfl, ?_, ?_⟩ <;> decide

/-- C5: in every reachable state at most one message of the timeline has a
truthy `showEmailConfirm` (`emailConfirmationPending`) flag. -/
theorem pending_at_most_one (s : ChatState) (h : Reached s) :
    s.messages.countP pendingFlag ≤ 1 :=
  (reached_msgsOk h).2.1

/-- Witness for C5 at a concrete reachable state whose seed is a pending
email-confirmation prompt. -/
theorem pending_at_most_one_witness :
    demoPending.messages.countP pendingFlag ≤ 1 :=
  pending_at_most_one demoPending (Reached.init "Ada" "a@x.com" emptyStore true true)

/-- C10: in every reachable state, a message that carries a products payload
has empty text and sender bot; hence no message combines non-empty text with
products and no user message carries products. -/
theorem products_only_bot_empty_text (s : ChatState) (h : Reached s) :
    ∀ m ∈ s.messages, m.products.isSome = true → m.text = "" ∧ m.sender = Sender.bot :=
  (reached_msgsOk h).2.2

/-- Witness for C10: the product message of a concrete successful turn has
empty text and sender bot. -/
theorem products_only_bot_empty_text_witness :
    demoProductMessage.text = "" ∧ demoProductMessage.sender = Sender.bot :=
  products_only_bot_empty_text demoWithProducts
    (Reached.send (some "show me some phones") (TurnOutcome.success demoResponse)
      (Reached.init "Ada" "" emptyStore true true))
    demoProductMessage (by decide) (by decide)

/-- C2: an accepted turn whose response carries an answer and a non-empty
products array appends exactly the user message, the bot text message and the
product message, text id < product id; when products is absent, null or
empty, only the user and bot text messages are appended. -/
theorem send_success_appends (s : ChatState) (mt : Option String)
    (data : BackendResponse) (ht : ¬ jsTrim (jsOr mt s.inputValue) = "") :
    (∀ ps : List Product, data.products = some ps → ps ≠ [] →
        (handleSendMessage s mt (TurnOutcome.success data)).messages =
          s.messages ++
            [userMessage s.messages.length (jsOr mt s.inputValue),
             botMessage s.messages.length data.answer,
             { id := s.messages.length + 3, text := "", sender := Sender.bot,
               products := some ps, isComparison := some (isComparisonData ps) }]
        ∧ (botMessage s.messages.length data.answer).id < s.messages.length + 3)
  ∧ ((data.products = none ∨ data.products = some []) →
        (handleSendMessage s mt (TurnOutcome.success data)).messages =
          s.messages ++
            [userMessage s.messages.length (jsOr mt s.inputValue),
             botMessage s.messages.length data.answer]) := by
  constructor
  · intro ps hps hne
    have hl : ps.length > 0 := List.length_pos.mpr hne
    constructor
    · unfold handleSendMessage
      simp [if_neg ht, hps, productPayload, hl, narrate_messages]
    · simp [botMessage]
  · intro hp
    unfold handleSendMessage
    rcases hp with hp | hp <;>
      simp [if_neg ht, hp, productPayload, narrate_messages]

/-- Witness for C2: the concrete two-product turn of `demoWithProducts`. -/
theorem send_success_appends_witness :
    (handleSendMessage demoFresh (some "show me some phones")
        (TurnOutcome.success demoResponse)).messages =
      demoFresh.messages ++
        [userMessage demoFresh.messages.length "show me some phones",
         botMessage demoFresh.messages.length (some "Here are some phones"),
         { id := demoFresh.messages.length + 3, text := "", sender := Sender.bot,
           products := some demoProducts,
           isComparison := some (isComparisonData demoProducts) }]
    ∧ (botMessage demoFresh.messages.length (some "Here are some phones")).id
        < demoFresh.messages.length + 3 :=
  (send_success_appends demoFresh (some "show me some phones") demoResponse
      (by decide)).1 demoProducts rfl (by decide)

/-- C4 as written is refuted: `handleSendMessage` consults neither the
in-flight flag nor the capture state.  At a reachable state with voice
capture active (and at the same state with the in-flight flag raised) a call
with non-empty text still appends a user message (here the turn fails, so two
messages are appended) and still issues a request. -/
theorem sendMessage_capture_counterexample :
    demoListening.voice.isListening = true
  ∧ (handleSendMessage demoListening (some "hello")
        TurnOutcome.networkFailure).messages.length
      = demoListening.messages.length + 2
  ∧ (handleSendMessage demoListening (some "hello")
        TurnOutcome.networkFailure).requests.length
      = demoListening.requests.length + 1
  ∧ (handleSendMessage { demoListening with isTyping := true } (some "hello")
        TurnOutcome.networkFailure).messages.length
      = demoListening.messages.length + 2 := by
  refine ⟨rfl, ?_, ?_, ?_⟩ <;> decide

/-- C4 amended: `sendMessage` is a silent no-op (state unchanged, so nothing
appended, no request issued, no error surfaced) exactly when the trimmed text
is empty; any call with non-empty trimmed text — even while a request is in
flight or voice capture is active, states in which only the disabled UI
controls block user-initiated sends — appends a user message with the next id
and issues exactly one request carrying the text and the effective email. -/
theorem sendMessage_guard_amended (s : ChatState) (mt : Option String)
    (o : TurnOutcome) :
    (jsTrim (jsOr mt s.inputValue) = "" → handleSendMessage s mt o = s)
  ∧ (¬ jsTrim (jsOr mt s.inputValue) = "" →
        (handleSendMessage s mt o).requests =
          s.requests ++ [(jsOr mt s.inputValue, effectiveEmail s)]
      ∧ ∃ rest : List Message,
          (handleSendMessage s mt o).messages =
            s.messages ++
              (userMessage s.messages.length (jsOr mt s.inputValue) :: rest)) :=
  ⟨fun h => sendMessage_of_empty s mt o h,
   fun ht => ⟨sendMessage_requests s mt o ht, sendMessage_head s mt o ht⟩⟩

/-- C6: calling `confirmEmail` when a pending prompt exists leaves zero
pending messages, makes `IdentityGate.isConfirmed` true for the user's email,
and appends exactly one new bot confirmation message while every existing
message keeps its id, text, sender and position (the flag is cleared in
place). -/
theorem confirmEmail_spec (s : ChatState)
    (_pending : ∃ m ∈ s.messages, m.showEmailConfirm = some true) :
    (confirmEmailOp s).messages.countP pendingFlag = 0
  ∧ isConfirmed (confirmEmailOp s).store s.userEmail = true
  ∧ (confirmEmailOp s).messages.map msgCore =
      s.messages.map msgCore ++ [(s.messages.length + 1, confirmText, Sender.bot)] := by
  have hmsg : (confirmEmailOp s).messages =
      s.messages.map clearPending ++ [confirmMessage s] := by
    unfold confirmEmailOp
    rw [narrate_messages]
    rfl
  have hstore : (confirmEmailOp s).store =
      setItem s.store (storageKey s.userEmail) "true" := by
    unfold confirmEmailOp
    rw [narrate_store]
    rfl
  refine ⟨?_, ?_, ?_⟩
  · rw [hmsg, List.countP_append]
    have h1 : (s.messages.map clearPending).countP pendingFlag = 0 := by
      rw [List.countP_eq_zero]
      intro m hm
      obtain ⟨m', _, rfl⟩ := List.mem_map.mp hm
      simp [pendingFlag_clearPending]
    have h2 : List.countP pendingFlag [confirmMessage s] = 0 := by
      simp [pendingFlag, confirmMessage, List.countP_cons]
    omega
  · rw [hstore]
    simp [isConfirmed, setItem]
  · rw [hmsg, List.map_append, List.map_map]
    congr 1
    exact List.map_congr_left fun m _ => clearPending_core m

/-- Witness for C6 at the concrete pending state `demoPending`. -/
theorem confirmEmail_spec_witness :
    (confirmEmailOp demoPending).messages.countP pendingFlag = 0
  ∧ isConfirmed (confirmEmailOp demoPending).store demoPending.userEmail = true
  ∧ (confirmEmailOp demoPending).messages.map msgCore =
      demoPending.messages.map msgCore ++
        [(demoPending.messages.length + 1, confirmText, Sender.bot)] :=
  confirmEmail_spec demoPending ⟨demoSeed, by decide, by decide⟩

/-- C7: with synthesis available, playback enabled and at most one utterance
pending, two `speak` calls in immediate succession keep at most one utterance
in flight; from idle the first call enqueues its utterance alone and the
second cancels it and leaves only its own — interrupted, never queued. -/
theorem speak_interrupts (s : ChatState) (t1 t2 : String)
    (h1 : s.synthAvail = true) (h2 : s.voice.voiceEnabled = true)
    (hq : s.synthQueue.length ≤ 1) :
    (speakText (speakText s t1) t2).synthQueue.length ≤ 1
  ∧ (s.voice.isSpeaking = false →
      (speakText s t1).synthQueue = [t1]
    ∧ (speakText (speakText s t1) t2).synthQueue = [t2]) := by
  by_cases hsp : s.voice.isSpeaking <;>
    simp [speakText, h1, h2, hsp, hq]

/-- Witness for C7 at the concrete idle state `demoFresh`. -/
theorem speak_interrupts_witness :
    (speakText (speakText demoFresh "first") "second").synthQueue.length ≤ 1
  ∧ (demoFresh.voice.isSpeaking = false →
      (speakText demoFresh "first").synthQueue = ["first"]
    ∧ (speakText (speakText demoFresh "first") "second").synthQueue = ["second"]) :=
  speak_interrupts demoFresh "first" "second" rfl rfl (by decide)

/-- C8 as written is refuted: `startListening` checks only
`recognitionRef.current && isSupported`, not `!listening`; at a state that is
already Listening it still issues a platform capture start. -/
theorem startListening_counterexample :
    demoListening.voice.isSupported = true
  ∧ demoListening.voice.isListening = true
  ∧ (startListening demoListening).2 = true :=
  ⟨rfl, rfl, rfl⟩

/-- C8 amended: whenever recognition is available and `isSupported` is true,
`startListening` sets `listening` and issues a platform capture start — also
when already Listening, where the state is unchanged but a duplicate capture
start is still issued; when the guard fails it leaves the state unchanged and
starts no capture. -/
theorem startListening_amended (s : ChatState) :
    ((s.recognitionAvail && s.voice.isSupported) = true →
        (startListening s).1 = { s with voice := { s.voice with isListening := true } }
      ∧ (startListening s).2 = true)
  ∧ ((s.recognitionAvail && s.voice.isSupported) = false →
        (startListening s).1 = s ∧ (startListening s).2 = false) := by
  constructor <;> intro h <;> simp [startListening, h]

/-- C9: every accepted turn ends with the in-flight (typing) flag cleared,
for every outcome — success, a narration or classifier throw, or a network
failure (the embedded `handleSendMessage` is a total function, so no error
reaches the caller); a network/parse failure appends exactly one fallback bot
message with the fixed apology text after the user message. -/
theorem send_failure_fallback (s : ChatState) (mt : Option String)
    (o : TurnOutcome) (ht : ¬ jsTrim (jsOr mt s.inputValue) = "") :
    (handleSendMessage s mt o).isTyping = false
  ∧ (handleSendMessage s mt TurnOutcome.networkFailure).messages =
      s.messages ++
        [userMessage s.messages.length (jsOr mt s.inputValue),
         { id := s.messages.length + 2, text := fallbackText,
           sender := Sender.bot }] := by
  refine ⟨sendMessage_isTyping s mt o ht, ?_⟩
  unfold handleSendMessage
  simp [if_neg ht]

/-- Witness for C9: a concrete turn whose narration throws has the typing
flag cleared, and the concrete failing turn appends the fallback. -/
theorem send_failure_fallback_witness :
    (handleSendMessage demoFresh (some "hi")
        (TurnOutcome.narrationThrows demoResponse)).isTyping = false
  ∧ (handleSendMessage demoFresh (some "hi") TurnOutcome.networkFailure).messages =
      demoFresh.messages ++
        [userMessage demoFresh.messages.length "hi",
         { id := demoFresh.messages.length + 2, text := fallbackText,
           sender := Sender.bot }] :=
  send_failure_fallback demoFresh (some "hi")
    (TurnOutcome.narrationThrows demoResponse) (by decide)

end ShopHub
